import Mathlib

/-!
# Verification of the eco-and-rebano-tracker extraction and caching core

Shallow embedding, in Lean 4, of the decision logic of this repository:

* `src/environment/data.py` — IMECA air-quality scraping (status
  classification, validation, the retry loop of `AirQualityScraper.scrape`
  and `AirQualityScraper.scrape_all_stations`, the per-station regex
  extraction `_parse_all_stations`, the mock generators), and the Chapala
  lake-level fetch `get_chapala_level_real`;
* `src/chivas/data.py` and the news half of `src/environment/data.py` —
  AI summarization fallback chains and the `processed` flag;
* `src/utils.py` — the daily file cache.

Modelling conventions:

* Network and remote-AI effects are parameters: each fetch attempt's
  outcome (`ScrapeAttempt`, `StationsAttempt`, …) and each remote model
  call's outcome (`Except String String`: `.ok text` for a reply,
  `.error msg` for a raised exception) are inputs to the embedded
  functions, mirroring exactly where the Python code observes them.
* `datetime.now()` results are threaded as explicit `String`/date
  arguments; `np.random.randint` draws are explicit `Nat` arguments
  (with the randint bounds stated as hypotheses where relevant).
* Python `dict` records are typed structures; machine floats that only
  carry exact decimal literals (station coordinates, lake level) are `ℚ`.
* `time.sleep(Config.RETRY_DELAY)` calls are counted in a `sleeps` field;
  `requests.get` calls are counted in a `fetches` field.
-/

set_option autoImplicit false

/-! ## Configuration (`Config` class, src/environment/data.py lines 41-58) -/

def REQUEST_TIMEOUT : Nat := 10

def MAX_RETRIES : Nat := 3

def RETRY_DELAY : Nat := 2

def IMECA_MIN : Int := 0

def IMECA_MAX : Int := 200

def IMECA_GOOD : Int := 50

def IMECA_BAD : Int := 100

/-- `Config.VALID_STATUSES`: the four statuses the code knows. -/
def VALID_STATUSES : List String := ["Buena", "Regular", "Mala", "Muy Mala"]

/-! ## Status classification and validation -/

/-- `AirQualityScraper._determine_status` (lines 403-412): classify an IMECA
value into one of the four status strings.  The Python parameter is a float;
every call site passes an integral value, so the embedding uses `Int`. -/
def determine_status (imeca : Int) : String :=
  if imeca ≤ IMECA_GOOD then "Buena"
  else if imeca ≤ IMECA_BAD then "Regular"
  else if imeca ≤ 150 then "Mala"
  else "Muy Mala"

/-- `validate_imeca_data` (lines 98-124).  The dict-shape checks (not a dict,
missing `imeca` key, non-numeric `imeca`) cannot fire in the typed embedding,
where the input is already an integer; the live check is the range test.
The non-standard-status branch only logs a warning and does not affect the
result.  Returns `(is_valid, error_message)` as in the source. -/
def validate_imeca_data (imeca : Int) : Bool × Option String :=
  if IMECA_MIN ≤ imeca ∧ imeca ≤ IMECA_MAX then
    (true, none)
  else
    (false, some "IMECA fuera de rango válido (0-200)")

/-! ## Air-quality records -/

/-- The dict returned by `_parse_html` / `_generate_mock_data`. -/
structure ImecaData where
  imeca : Int
  status : String
  station : String
  last_update : String
  source : String
deriving Repr, DecidableEq

/-- `AirQualityScraper._generate_mock_data` (lines 414-425).  `r` is the
`np.random.randint(45, 115)` draw and `now` the formatted clock time. -/
def generate_mock_data (r : Nat) (now : String) : ImecaData :=
  { imeca := (r : Int)
    status := determine_status (r : Int)
    station := "Las Pintas (Simulado)"
    last_update := now
    source := "mock" }

/-- One entry of the list produced by `_parse_all_stations` /
`_generate_mock_stations`. -/
structure StationReading where
  station : String
  imeca : Int
  status : String
  lat : Option ℚ
  lon : Option ℚ
  last_update : String
  source : String
deriving Repr, DecidableEq

/-- `STATION_COORDS` (lines 62-70), in the source's insertion order. -/
def STATION_COORDS : List (String × ℚ × ℚ) :=
  [("Las Pintas", 20.5689, -103.3064),
   ("Centro", 20.6744, -103.3464),
   ("Miravalle", 20.6325, -103.3300),
   ("Tlaquepaque", 20.6400, -103.3120),
   ("Vallarta", 20.6736, -103.3914),
   ("Oblatos", 20.6786, -103.2939),
   ("Águilas", 20.6800, -103.4300)]

/-- `STATION_COORDS.get(name)`: exact key lookup. -/
def lookupCoords (name : String) : Option (ℚ × ℚ) :=
  (STATION_COORDS.find? (fun p => p.1 == name)).map (fun p => p.2)

/-- Helper for `_generate_mock_stations`: iterate the registry carrying the
index of the random draw used for each station. -/
def generate_mock_stations_go (draw : Nat → Nat) (now : String) :
    Nat → List (String × ℚ × ℚ) → List StationReading
  | _, [] => []
  | i, (name, la, lo) :: rest =>
    { station := name
      imeca := (draw i : Int)
      status := determine_status (draw i : Int)
      lat := some la
      lon := some lo
      last_update := now
      source := "mock" } :: generate_mock_stations_go draw now (i + 1) rest

/-- `AirQualityScraper._generate_mock_stations` (lines 504-520): one mock
reading per registry station; `draw i` is the `np.random.randint(40, 140)`
draw for the `i`-th station. -/
def generate_mock_stations (draw : Nat → Nat) (now : String) : List StationReading :=
  generate_mock_stations_go draw now 0 STATION_COORDS

/-! ## C1: status thresholds -/

/-- Claim C1 (counterexample): the claim asserts a five-class classification
in which `(150,200]` maps to VeryBad and `v > 200` maps to a distinct fifth
class ExtremelyBad.  The code has no fifth class: `_determine_status` maps
180 and 250 to the same string `"Muy Mala"`, and `Config.VALID_STATUSES`
lists exactly four statuses. -/
theorem c1_counterexample :
    determine_status 180 = "Muy Mala" ∧
    determine_status 250 = "Muy Mala" ∧
    determine_status 180 = determine_status 250 ∧
    VALID_STATUSES.length = 4 :=
  ⟨rfl, rfl, rfl, rfl⟩

/-- Claim C1 (amended): the status classification is a pure, total function
of the integer index value with exactly four classes and the thresholds
`v ≤ 50 → "Buena"` (Good), `50 < v ≤ 100 → "Regular"` (Moderate),
`100 < v ≤ 150 → "Mala"` (Bad), `150 < v → "Muy Mala"`; the boundaries
50, 100 and 150 belong to the lower class and there is no gap or overlap;
there is no separate class for values above 200. -/
theorem c1_thresholds : ∀ v : Int,
    (v ≤ 50 → determine_status v = "Buena") ∧
    (50 < v → v ≤ 100 → determine_status v = "Regular") ∧
    (100 < v → v ≤ 150 → determine_status v = "Mala") ∧
    (150 < v → determine_status v = "Muy Mala") := by
  intro v
  unfold determine_status IMECA_GOOD IMECA_BAD
  refine ⟨fun h => ?_, fun h1 h2 => ?_, fun h1 h2 => ?_, fun h => ?_⟩ <;>
    split_ifs <;> first | rfl | omega

/-- Witness for `c1_thresholds` at the concrete value 120. -/
theorem c1_thresholds_witness : determine_status 120 = "Mala" :=
  (c1_thresholds 120).2.2.1 (by norm_num) (by norm_num)

/-! ## C10: synthetic readings are bounded and never worst-class -/

/-- If the value is at most 150 the status is never the worst class. -/
theorem determine_status_ne_worst {v : Int} (h : v ≤ 150) :
    determine_status v ≠ "Muy Mala" := by
  unfold determine_status
  split_ifs <;> decide

/-- Membership in `generate_mock_stations` means the entry was built from
some draw index, its status classified from that draw, with source `"mock"`. -/
theorem mem_generate_mock_stations_go {draw : Nat → Nat} {now : String} :
    ∀ (i : Nat) (l : List (String × ℚ × ℚ)) (x : StationReading),
      x ∈ generate_mock_stations_go draw now i l →
      ∃ j, x.imeca = (draw j : Int) ∧
        x.status = determine_status (draw j : Int) ∧ x.source = "mock" := by
  intro i l
  induction l generalizing i with
  | nil => intro x hx; simp [generate_mock_stations_go] at hx
  | cons hd tl ih =>
    intro x hx
    obtain ⟨name, la, lo⟩ := hd
    simp only [generate_mock_stations_go, List.mem_cons] at hx
    rcases hx with rfl | hx
    · exact ⟨i, rfl, rfl, rfl⟩
    · exact ih (i + 1) x hx

/-- Claim C10: every synthetic reading has its index value inside the
`randint` bounds of the source (45-114 for the single city reading,
40-139 per station), hence strictly below 150 and within the valid range
`[0, 200]`, and its status is never the worst class `"Muy Mala"`. -/
theorem c10_mock_bounds :
    (∀ (r : Nat) (now : String), 45 ≤ r → r ≤ 114 →
      0 ≤ (generate_mock_data r now).imeca ∧
      (generate_mock_data r now).imeca ≤ 200 ∧
      (generate_mock_data r now).imeca < 150 ∧
      (generate_mock_data r now).status ≠ "Muy Mala") ∧
    (∀ (draw : Nat → Nat) (now : String), (∀ i, 40 ≤ draw i ∧ draw i ≤ 139) →
      ∀ x ∈ generate_mock_stations draw now,
        0 ≤ x.imeca ∧ x.imeca ≤ 200 ∧ x.imeca < 150 ∧ x.status ≠ "Muy Mala") := by
  constructor
  · intro r now h1 h2
    simp only [generate_mock_data]
    exact ⟨by omega, by omega, by omega, determine_status_ne_worst (by omega)⟩
  · intro draw now hdraw x hx
    obtain ⟨j, hj, hstatus, _⟩ := mem_generate_mock_stations_go 0 STATION_COORDS x hx
    have h139 := (hdraw j).2
    have himeca : x.imeca ≤ 139 := by rw [hj]; omega
    refine ⟨by rw [hj]; omega, himeca.trans (by norm_num),
      himeca.trans_lt (by norm_num), ?_⟩
    rw [hstatus]
    exact determine_status_ne_worst (by omega)

/-- Witness for `c10_mock_bounds` at the draw value 50 for the single
reading and the constant draw 40 for the stations. -/
theorem c10_mock_bounds_witness :
    ((generate_mock_data 50 "12:00").imeca < 150 ∧
      (generate_mock_data 50 "12:00").status ≠ "Muy Mala") ∧
    ∀ x ∈ generate_mock_stations (fun _ => 40) "12:00",
      x.imeca < 150 ∧ x.status ≠ "Muy Mala" := by
  constructor
  · have h := c10_mock_bounds.1 50 "12:00" (by norm_num) (by norm_num)
    exact ⟨h.2.2.1, h.2.2.2⟩
  · intro x hx
    have h := c10_mock_bounds.2 (fun _ => 40) "12:00"
      (fun i => ⟨le_refl 40, by norm_num⟩) x hx
    exact ⟨h.2.2.1, h.2.2.2⟩

/-! ## Per-station extraction (`_parse_all_stations`, lines 427-502)

The station pattern of the source is the regex

`Nivel\s+m[aá]ximo\s+registrado\s+(\d{1,3})\s*puntos?\s*IMECA\s+en\s+([A-Za-zÁÉÍÓÚÑñ ]+)`

applied with `re.findall` and `re.IGNORECASE`.  The matcher below implements
exactly this pattern over the character list of the page text: literals are
compared case-insensitively, `\s+`/`\s*` consume maximal whitespace runs and
the bounded repetitions are matched greedily (each is followed in the pattern
by a token that cannot extend the repetition, so maximal munch coincides with
the regex's backtracking semantics on such texts). -/

/-- Case folding as done by `re.IGNORECASE` for the characters used by the
pattern: ASCII letters plus the accented uppercase letters of the class. -/
def pyLower (c : Char) : Char :=
  if c = 'Á' then 'á' else if c = 'É' then 'é' else if c = 'Í' then 'í'
  else if c = 'Ó' then 'ó' else if c = 'Ú' then 'ú' else if c = 'Ñ' then 'ñ'
  else c.toLower

/-- Python `\s`: space, tab, newline, carriage return, form feed, vertical tab. -/
def isSpaceChar (c : Char) : Bool :=
  c = ' ' || c = '\t' || c = '\n' || c = '\r' || c = '\x0c' || c = '\x0b'

def isDigitChar (c : Char) : Bool :=
  '0' ≤ c && c ≤ '9'

/-- The character class `[A-Za-zÁÉÍÓÚÑñ ]` under `re.IGNORECASE`. -/
def isStationChar (c : Char) : Bool :=
  ('A' ≤ c && c ≤ 'Z') || ('a' ≤ c && c ≤ 'z') || c = ' ' ||
  c = 'Á' || c = 'É' || c = 'Í' || c = 'Ó' || c = 'Ú' || c = 'Ñ' ||
  c = 'á' || c = 'é' || c = 'í' || c = 'ó' || c = 'ú' || c = 'ñ'

/-- Match a literal word case-insensitively; the pattern is given lowercase.
Returns the remaining input on success. -/
def matchLitCI : List Char → List Char → Option (List Char)
  | [], s => some s
  | _ :: _, [] => none
  | p :: ps, c :: cs => if pyLower c = p then matchLitCI ps cs else none

/-- Match one character of a class. -/
def matchClass1 (ok : Char → Bool) : List Char → Option (List Char)
  | [] => none
  | c :: cs => if ok c then some cs else none

/-- `\s+`: at least one whitespace character, maximal munch. -/
def matchSpaces1 : List Char → Option (List Char)
  | [] => none
  | c :: cs => if isSpaceChar c then some (cs.dropWhile isSpaceChar) else none

def digitVal (c : Char) : Nat := c.toNat - 48

/-- `(\d{1,3})`: one to three digits, greedy, returning the numeric value
(`int(...)` of the captured group). -/
def matchDigits13 : List Char → Option (Nat × List Char)
  | [] => none
  | c1 :: cs1 =>
    if isDigitChar c1 then
      match cs1 with
      | c2 :: cs2 =>
        if isDigitChar c2 then
          match cs2 with
          | c3 :: cs3 =>
            if isDigitChar c3 then
              some (100 * digitVal c1 + 10 * digitVal c2 + digitVal c3, cs3)
            else some (10 * digitVal c1 + digitVal c2, cs2)
          | [] => some (10 * digitVal c1 + digitVal c2, cs2)
        else some (digitVal c1, cs1)
      | [] => some (digitVal c1, cs1)
    else none

/-- `s?`: optionally consume an `s` (case-insensitively). -/
def matchOptS : List Char → List Char
  | [] => []
  | c :: cs => if pyLower c = 's' then cs else c :: cs

def litNivel : List Char := "nivel".data
def litXimo : List Char := "ximo".data
def litRegistrado : List Char := "registrado".data
def litPunto : List Char := "punto".data
def litImeca : List Char := "imeca".data
def litEn : List Char := "en".data
def litM : List Char := "m".data

/-- After the numeric capture: `\s*puntos?\s*IMECA\s+en\s+` followed by the
greedy station-name capture `([A-Za-zÁÉÍÓÚÑñ ]+)`. -/
def matchAfterDigits (v : Nat) (s0 : List Char) : Option (Nat × List Char × List Char) :=
  match matchLitCI litPunto (s0.dropWhile isSpaceChar) with
  | none => none
  | some s1 =>
    match matchLitCI litImeca ((matchOptS s1).dropWhile isSpaceChar) with
    | none => none
    | some s2 =>
      match matchSpaces1 s2 with
      | none => none
      | some s3 =>
        match matchLitCI litEn s3 with
        | none => none
        | some s4 =>
          match matchSpaces1 s4 with
          | none => none
          | some s5 =>
            let name := s5.takeWhile isStationChar
            if name.isEmpty then none
            else some (v, name, s5.dropWhile isStationChar)

/-- The prefix `Nivel\s+m[aá]ximo\s+registrado\s+` of the pattern. -/
def matchUpToDigits (s : List Char) : Option (List Char) :=
  match matchLitCI litNivel s with
  | none => none
  | some s1 =>
    match matchSpaces1 s1 with
    | none => none
    | some s2 =>
      match matchLitCI litM s2 with
      | none => none
      | some s3 =>
        match matchClass1 (fun c => pyLower c == 'a' || pyLower c == 'á') s3 with
        | none => none
        | some s4 =>
          match matchLitCI litXimo s4 with
          | none => none
          | some s5 =>
            match matchSpaces1 s5 with
            | none => none
            | some s6 =>
              match matchLitCI litRegistrado s6 with
              | none => none
              | some s7 => matchSpaces1 s7

/-- Attempt the whole station pattern at the current position; on success
return the captured numeric value, the captured station-name fragment
(greedy run of `[A-Za-zÁÉÍÓÚÑñ ]`), and the rest of the input. -/
def matchStationPattern (s : List Char) : Option (Nat × List Char × List Char) :=
  match matchUpToDigits s with
  | none => none
  | some s1 =>
    match matchDigits13 s1 with
    | none => none
    | some (v, s2) => matchAfterDigits v s2

/-- `re.findall`: scan left to right, at each position try the pattern; on a
match emit the captured groups and resume after the match (non-overlapping).
The fuel argument bounds the number of scan steps; callers pass
`length + 1`, which suffices because every step either consumes one
character or jumps past a non-empty match. -/
def findStationMatches : Nat → List Char → List (Nat × List Char)
  | 0, _ => []
  | _ + 1, [] => []
  | fuel + 1, c :: cs =>
    match matchStationPattern (c :: cs) with
    | some (v, name, rest) => (v, name) :: findStationMatches fuel rest
    | none => findStationMatches fuel cs

/-- Collapse consecutive spaces to one (`re.sub` of `\s+` by a space, after
each whitespace character has been mapped to a plain space). -/
def dedupeSpaces : List Char → List Char
  | [] => []
  | [c] => [c]
  | a :: b :: rest =>
    if isSpaceChar a && isSpaceChar b then dedupeSpaces (b :: rest)
    else a :: dedupeSpaces (b :: rest)

/-- Python `str.strip()` restricted to whitespace. -/
def stripEdges (s : List Char) : List Char :=
  ((s.dropWhile isSpaceChar).reverse.dropWhile isSpaceChar).reverse

/-- `re.sub(r"\s+", " ", name).strip()` applied to the captured fragment. -/
def cleanStationName (s : List Char) : String :=
  String.mk (stripEdges (dedupeSpaces (s.map fun c => if isSpaceChar c then ' ' else c)))

/-- `AirQualityScraper._parse_all_stations` (lines 427-502): find all station
matches in the page text and shape each into a reading.  The update-time
extraction of lines 441-474 only computes the `last_update` string (falling
back to the current clock time when, as in every text considered here, no
time pattern occurs); it is threaded as the explicit `last_update` argument.
The `int(...)` conversion of the captured digits cannot fail. -/
def parse_all_stations (last_update : String) (page_text : String) : List StationReading :=
  (findStationMatches (page_text.data.length + 1) page_text.data).map fun m =>
    let clean := cleanStationName m.2
    let coords := lookupCoords clean
    { station := clean
      imeca := (m.1 : Int)
      status := determine_status (m.1 : Int)
      lat := coords.map (fun p => p.1)
      lon := coords.map (fun p => p.2)
      last_update := last_update
      source := "real" }

/-- Claim C7: on the input text
`"Nivel máximo registrado 142 puntos IMECA en Las Pintas"` the per-station
extraction returns exactly one reading, with station `"Las Pintas"`, index
value 142, status `"Mala"` (the code's name for Bad), origin `"real"`, and
the registry coordinates of Las Pintas.  `lu` is the update-time string
(the clock time, since the text contains no time pattern). -/
theorem c7_las_pintas_scenario (lu : String) :
    parse_all_stations lu "Nivel máximo registrado 142 puntos IMECA en Las Pintas" =
      [{ station := "Las Pintas", imeca := 142, status := "Mala",
         lat := some 20.5689, lon := some (-103.3064),
         last_update := lu, source := "real" }] := rfl

/-! ## Retry loop of `AirQualityScraper.scrape` (lines 141-191)

Each loop iteration performs one `_fetch_data()` call (HTTP GET plus
`_parse_html`).  Its outcome is a parameter indexed by the attempt number:

* `.parsed d` — the fetch and parse succeeded, returning the dict `d`
  (which is then run through `validate_imeca_data`; an invalid dict is
  logged and the loop moves to the next attempt with no sleep);
* `.timeout` — `requests.exceptions.Timeout`: sleep `RETRY_DELAY` and retry,
  except on the last attempt;
* `.httpError st` — `requests.exceptions.HTTPError` with status `st`:
  a 404 breaks out of the loop, any other status falls through to the next
  attempt with no sleep;
* `.connError` — other `requests.exceptions.RequestException`: sleep and
  retry, except on the last attempt;
* `.otherError` — any other exception, in particular the `ValueError`
  raised by `_parse_html` when no IMECA value is found: break.

After the loop, mock data is substituted when `use_mock_on_error` is true,
otherwise `Exception(...)` is raised (modelled as `.error`). -/

inductive ScrapeAttempt where
  | parsed (d : ImecaData)
  | timeout
  | httpError (status : Nat)
  | connError
  | otherError
deriving Repr, DecidableEq

/-- State of the `for attempt in range(MAX_RETRIES)` loop: the value
returned from inside the loop if any, and the counts of `requests.get`
calls and `time.sleep(RETRY_DELAY)` calls so far. -/
structure LoopTrace (α : Type) where
  found : Option α
  fetches : Nat
  sleeps : Nat
deriving Repr, DecidableEq

/-- The loop body of `AirQualityScraper.scrape`, one constructor case per
`except` clause; `fuel` counts the remaining iterations of
`range(MAX_RETRIES)` and `attempt` is the current index. -/
def scrape_loop (att : Nat → ScrapeAttempt) :
    Nat → Nat → Nat → Nat → LoopTrace ImecaData
  | 0, _, f, s => ⟨none, f, s⟩
  | fuel + 1, attempt, f, s =>
    match att attempt with
    | .parsed d =>
      if (validate_imeca_data d.imeca).1 then ⟨some d, f + 1, s⟩
      else scrape_loop att fuel (attempt + 1) (f + 1) s
    | .timeout =>
      if attempt < MAX_RETRIES - 1 then scrape_loop att fuel (attempt + 1) (f + 1) (s + 1)
      else scrape_loop att fuel (attempt + 1) (f + 1) s
    | .httpError st =>
      if st = 404 then ⟨none, f + 1, s⟩
      else scrape_loop att fuel (attempt + 1) (f + 1) s
    | .connError =>
      if attempt < MAX_RETRIES - 1 then scrape_loop att fuel (attempt + 1) (f + 1) (s + 1)
      else scrape_loop att fuel (attempt + 1) (f + 1) s
    | .otherError => ⟨none, f + 1, s⟩

/-- Outcome of a whole `scrape` call together with its I/O trace. -/
structure ScrapeRun where
  result : Except String ImecaData
  fetches : Nat
  sleeps : Nat

/-- `AirQualityScraper.scrape` (lines 141-191): run the retry loop, then
either return the validated data, or fall back to `_generate_mock_data`
(draw `r`, clock `now`) when `use_mock_on_error` is true, or raise. -/
def scrape (att : Nat → ScrapeAttempt) (r : Nat) (now : String)
    (use_mock_on_error : Bool) : ScrapeRun :=
  let t := scrape_loop att MAX_RETRIES 0 0 0
  match t.found with
  | some d => ⟨.ok d, t.fetches, t.sleeps⟩
  | none =>
    if use_mock_on_error then ⟨.ok (generate_mock_data r now), t.fetches, t.sleeps⟩
    else ⟨.error "No se pudo obtener datos después de múltiples intentos", t.fetches, t.sleeps⟩

/-! ## C4: HTTP client errors and the retry loop -/

/-- Claim C4 (counterexample): the claim says every 4xx status aborts after
the first failing attempt.  The code only breaks on 404; a persistent 403
is fetched `MAX_RETRIES = 3` times, not once. -/
theorem c4_counterexample :
    (scrape (fun _ => ScrapeAttempt.httpError 403) 50 "12:00" true).fetches = 3 := rfl

/-- Claim C4 (amended): only a 404 aborts the loop immediately after one
attempt; any other persistent HTTP error status is retried up to the
3-attempt bound, with no sleep between attempts; in both cases no further
fetch follows the bound. -/
theorem c4_http_retry_policy :
    (∀ (r : Nat) (now : String) (um : Bool),
      (scrape (fun _ => ScrapeAttempt.httpError 404) r now um).fetches = 1 ∧
      (scrape (fun _ => ScrapeAttempt.httpError 404) r now um).sleeps = 0) ∧
    (∀ st : Nat, st ≠ 404 → ∀ (r : Nat) (now : String) (um : Bool),
      (scrape (fun _ => ScrapeAttempt.httpError st) r now um).fetches = 3 ∧
      (scrape (fun _ => ScrapeAttempt.httpError st) r now um).sleeps = 0) := by
  constructor
  · intro r now um
    cases um <;> exact ⟨rfl, rfl⟩
  · intro st hst r now um
    have h4 : (st = 404) = False := by simp [hst]
    cases um <;>
      simp [scrape, scrape_loop, h4, MAX_RETRIES]

/-- Witness for `c4_http_retry_policy` at the concrete status 400. -/
theorem c4_http_retry_policy_witness :
    (scrape (fun _ => ScrapeAttempt.httpError 400) 50 "12:00" true).fetches = 3 ∧
    (scrape (fun _ => ScrapeAttempt.httpError 400) 50 "12:00" true).sleeps = 0 :=
  c4_http_retry_policy.2 400 (by norm_num) 50 "12:00" true

/-! ## C5: parse and validation failures versus the network -/

/-- A dict that `_parse_html` can produce from text such as
`"Nivel máximo registrado 250 puntos IMECA"`: the value-extraction pattern
has no range bound, and `_determine_status` classifies 250 as the worst
class; `validate_imeca_data` then rejects it as out of range. -/
def out_of_range_data : ImecaData :=
  { imeca := 250, status := "Muy Mala", station := "ZMG",
    last_update := "10:00", source := "real" }

/-- Claim C5 (counterexample): the claim says an attempt whose fetch
succeeds but whose value fails validation (out of the valid index range)
is never followed by another fetch.  In the code an invalid dict merely
logs a warning and the loop continues: a persistently out-of-range value
is fetched `MAX_RETRIES = 3` times, not once. -/
theorem c5_counterexample :
    (scrape (fun _ => ScrapeAttempt.parsed out_of_range_data) 50 "12:00" true).fetches = 3 := rfl

/-- Claim C5 (amended): a parse failure (`ValueError`: no IMECA value found
in the HTML) aborts after one fetch with no retry, after which the
controller substitutes synthetic data (when allowed) or raises; a
validation failure (numeric value out of the valid range) instead causes
the fetch to be retried up to the 3-attempt bound, with no sleep between
attempts, before synthetic data is substituted or the terminal error
raised. -/
theorem c5_parse_validation_policy :
    (∀ (r : Nat) (now : String),
      scrape (fun _ => ScrapeAttempt.otherError) r now true =
        ⟨.ok (generate_mock_data r now), 1, 0⟩ ∧
      scrape (fun _ => ScrapeAttempt.otherError) r now false =
        ⟨.error "No se pudo obtener datos después de múltiples intentos", 1, 0⟩) ∧
    (∀ d : ImecaData, (validate_imeca_data d.imeca).1 = false →
      ∀ (r : Nat) (now : String),
        scrape (fun _ => ScrapeAttempt.parsed d) r now true =
          ⟨.ok (generate_mock_data r now), 3, 0⟩ ∧
        scrape (fun _ => ScrapeAttempt.parsed d) r now false =
          ⟨.error "No se pudo obtener datos después de múltiples intentos", 3, 0⟩) := by
  constructor
  · intro r now
    exact ⟨rfl, rfl⟩
  · intro d hd r now
    constructor <;> simp [scrape, scrape_loop, hd, MAX_RETRIES]

/-- Witness for `c5_parse_validation_policy` at the out-of-range dict. -/
theorem c5_parse_validation_policy_witness :
    scrape (fun _ => ScrapeAttempt.parsed out_of_range_data) 60 "09:30" true =
      ⟨.ok (generate_mock_data 60 "09:30"), 3, 0⟩ :=
  (c5_parse_validation_policy.2 out_of_range_data rfl 60 "09:30").1

/-! ## Chapala lake level (`get_chapala_level_real`, lines 612-681)

The function performs a single `requests.get` inside one `try` block; every
failure — timeout, HTTP error, connection error, or the `ValueError` raised
when no cota pattern matches — reaches the single `except Exception`
handler, which either re-raises (when `use_mock_on_error` is false) or
returns the fixed mock level 94.50.  There is no retry loop. -/

/-- The dict returned by `get_chapala_level_real`. -/
structure ChapalaData where
  level_msnm : ℚ
  unit : String
  last_update : String
  source : String
  raw_snippet : Option String
deriving Repr, DecidableEq

/-- Outcome of the single fetch-and-parse attempt: either a cota value with
its evidence snippet, or any raised exception with its message. -/
inductive ChapalaAttempt where
  | value (v : ℚ) (snippet : String)
  | failure (msg : String)
deriving Repr, DecidableEq

/-- Result of `get_chapala_level_real` with its fetch count. -/
structure ChapalaRun where
  result : Except String ChapalaData
  fetches : Nat

/-- `get_chapala_level_real` (lines 612-681): exactly one fetch, then the
value or the fallback. -/
def get_chapala_level_real (att : ChapalaAttempt) (use_mock_on_error : Bool)
    (now : String) : ChapalaRun :=
  { fetches := 1
    result :=
      match att with
      | .value v snip => .ok ⟨v, "msnm", now, "real", some snip⟩
      | .failure msg =>
        if use_mock_on_error then .ok ⟨94.50, "msnm", now, "mock", none⟩
        else .error msg }

/-! ## C6: retry bound on persistent timeout -/

/-- Claim C6 (counterexample): the claim says every data source that always
times out is fetched exactly 3 times with 2-second delays.  The Chapala
level source has no retry loop: a timeout there results in exactly one
fetch, not three. -/
theorem c6_counterexample :
    (get_chapala_level_real (ChapalaAttempt.failure "timeout") true "12:00").fetches = 1 := rfl

/-- Claim C6 (amended): the air-quality scraper `scrape` makes exactly
`MAX_RETRIES = 3` fetch attempts on persistent
timeout, sleeping `RETRY_DELAY = 2` seconds between consecutive attempts
(2 sleeps for 3 attempts) and never a fourth; the Chapala level fetch
instead performs exactly one network attempt before giving up
(substituting synthetic data or re-raising). -/
theorem c6_retry_bound :
    (∀ (r : Nat) (now : String) (um : Bool),
      (scrape (fun _ => ScrapeAttempt.timeout) r now um).fetches = 3 ∧
      (scrape (fun _ => ScrapeAttempt.timeout) r now um).sleeps = 2) ∧
    RETRY_DELAY = 2 ∧ MAX_RETRIES = 3 ∧
    (∀ (att : ChapalaAttempt) (um : Bool) (now : String),
      (get_chapala_level_real att um now).fetches = 1) := by
  refine ⟨?_, rfl, rfl, ?_⟩
  · intro r now um
    cases um <;> exact ⟨rfl, rfl⟩
  · intro att um now
    rfl

/-! ## Retry loop of `AirQualityScraper.scrape_all_stations` (lines 522-565)

Same shape as `scrape`, but a successful fetch carries the page text, which
is parsed by `_parse_all_stations`; a non-empty station list is returned
immediately, while an empty one raises `ValueError`, caught by the final
`except Exception` clause — a break, exactly like any other unexpected
exception.  After the loop: `_generate_mock_stations` or raise. -/

inductive StationsAttempt where
  | html (text : String)
  | timeout
  | httpError (status : Nat)
  | connError
  | otherError
deriving Repr, DecidableEq

/-- Loop body of `scrape_all_stations`; `lu` is the update-time string
computed by the time-pattern block of `_parse_all_stations`. -/
def scrape_all_stations_loop (att : Nat → StationsAttempt) (lu : String) :
    Nat → Nat → Nat → Nat → LoopTrace (List StationReading)
  | 0, _, f, s => ⟨none, f, s⟩
  | fuel + 1, attempt, f, s =>
    match att attempt with
    | .html text =>
      let stations := parse_all_stations lu text
      if stations.isEmpty then ⟨none, f + 1, s⟩
      else ⟨some stations, f + 1, s⟩
    | .timeout =>
      if attempt < MAX_RETRIES - 1 then
        scrape_all_stations_loop att lu fuel (attempt + 1) (f + 1) (s + 1)
      else scrape_all_stations_loop att lu fuel (attempt + 1) (f + 1) s
    | .httpError st =>
      if st = 404 then ⟨none, f + 1, s⟩
      else scrape_all_stations_loop att lu fuel (attempt + 1) (f + 1) s
    | .connError =>
      if attempt < MAX_RETRIES - 1 then
        scrape_all_stations_loop att lu fuel (attempt + 1) (f + 1) (s + 1)
      else scrape_all_stations_loop att lu fuel (attempt + 1) (f + 1) s
    | .otherError => ⟨none, f + 1, s⟩

/-- Result of a whole `scrape_all_stations` call with its I/O trace. -/
structure StationsRun where
  result : Except String (List StationReading)
  fetches : Nat
  sleeps : Nat

/-- `AirQualityScraper.scrape_all_stations` (lines 522-565): run the loop,
then fall back to `_generate_mock_stations` (draws `draw`, clock `now`)
when `use_mock_on_error` is true, else raise. -/
def scrape_all_stations (att : Nat → StationsAttempt) (lu now : String)
    (draw : Nat → Nat) (use_mock_on_error : Bool) : StationsRun :=
  let t := scrape_all_stations_loop att lu MAX_RETRIES 0 0 0
  match t.found with
  | some st => ⟨.ok st, t.fetches, t.sleeps⟩
  | none =>
    if use_mock_on_error then ⟨.ok (generate_mock_stations draw now), t.fetches, t.sleeps⟩
    else ⟨.error "No se pudieron obtener datos de estaciones después de múltiples intentos",
          t.fetches, t.sleeps⟩

/-! ## C2: the synthetic-fallback threshold -/

/-- Claim C2 (counterexample): the claim says a real parse recovering fewer
than 5 stations makes the engine return the full synthetic set.  The code
only falls back when zero stations parse (`if stations:`): a page text
yielding a single station — fewer than 5 — is returned as-is, one real
reading, not the 7-entry synthetic set. -/
theorem c2_counterexample :
    (scrape_all_stations
        (fun _ => StationsAttempt.html "Nivel máximo registrado 60 puntos IMECA en Centro")
        "12:00" "12:00" (fun _ => 40) true).result =
      .ok [{ station := "Centro", imeca := 60, status := "Regular",
             lat := some 20.6744, lon := some (-103.3464),
             last_update := "12:00", source := "real" }] := rfl

/-- Every reading emitted by `parse_all_stations` has origin `"real"`. -/
theorem parse_all_stations_source (lu text : String) :
    ∀ x ∈ parse_all_stations lu text, x.source = "real" := by
  intro x hx
  simp only [parse_all_stations, List.mem_map] at hx
  obtain ⟨m, -, rfl⟩ := hx
  rfl

/-- If the stations loop returns a station list, it is a `parse_all_stations`
result, hence all its entries have origin `"real"`. -/
theorem stations_loop_found_real (att : Nat → StationsAttempt) (lu : String) :
    ∀ (fuel attempt f s : Nat) (l : List StationReading),
      (scrape_all_stations_loop att lu fuel attempt f s).found = some l →
      ∀ x ∈ l, x.source = "real" := by
  intro fuel
  induction fuel with
  | zero =>
    intro attempt f s l h
    simp [scrape_all_stations_loop] at h
  | succ n ih =>
    intro attempt f s l h
    unfold scrape_all_stations_loop at h
    split at h
    · dsimp only at h
      split at h
      · exact absurd h (by simp)
      · injection h with h
        subst h
        rename_i text heq hne
        exact parse_all_stations_source lu text
    · split at h
      · exact ih _ _ _ l h
      · exact ih _ _ _ l h
    · split at h
      · exact absurd h (by simp)
      · exact ih _ _ _ l h
    · split at h
      · exact ih _ _ _ l h
      · exact ih _ _ _ l h
    · exact absurd h (by simp)

/-- The synthetic set has one entry per registry station. -/
theorem generate_mock_stations_length (draw : Nat → Nat) (now : String) :
    (generate_mock_stations draw now).length = STATION_COORDS.length := by
  suffices h : ∀ (i : Nat) (l : List (String × ℚ × ℚ)),
      (generate_mock_stations_go draw now i l).length = l.length by
    exact h 0 STATION_COORDS
  intro i l
  induction l generalizing i with
  | nil => rfl
  | cons hd tl ih =>
    obtain ⟨name, la, lo⟩ := hd
    simp [generate_mock_stations_go, ih]

/-- Claim C2 (amended): the engine substitutes the synthetic set only when
a parse recovers zero stations (on every attempt): in that case, with
synthetic fallback enabled, it returns exactly the full synthetic station
set — one entry per station of the static registry, every entry with
origin `"mock"`; and no call ever mixes origins: any returned list is
either entirely real or entirely the synthetic set. -/
theorem c2_zero_parse_fallback :
    (∀ (att : Nat → StationsAttempt) (lu now : String) (draw : Nat → Nat),
      (∀ i, i < MAX_RETRIES → ∃ t, att i = StationsAttempt.html t ∧
        parse_all_stations lu t = []) →
      (scrape_all_stations att lu now draw true).result =
          .ok (generate_mock_stations draw now) ∧
        (generate_mock_stations draw now).length = STATION_COORDS.length ∧
        ∀ x ∈ generate_mock_stations draw now, x.source = "mock") ∧
    (∀ (att : Nat → StationsAttempt) (lu now : String) (draw : Nat → Nat)
        (um : Bool) (l : List StationReading),
      (scrape_all_stations att lu now draw um).result = .ok l →
      (∀ x ∈ l, x.source = "real") ∨ (∀ x ∈ l, x.source = "mock")) := by
  constructor
  · intro att lu now draw h
    obtain ⟨t, ht, hpt⟩ := h 0 (by norm_num [MAX_RETRIES])
    have hloop : scrape_all_stations_loop att lu MAX_RETRIES 0 0 0 =
        ⟨none, 1, 0⟩ := by
      show scrape_all_stations_loop att lu 3 0 0 0 = ⟨none, 1, 0⟩
      simp [scrape_all_stations_loop, ht, hpt]
    refine ⟨?_, generate_mock_stations_length draw now, ?_⟩
    · simp [scrape_all_stations, hloop]
    · intro x hx
      obtain ⟨j, -, -, hsrc⟩ := mem_generate_mock_stations_go 0 STATION_COORDS x hx
      exact hsrc
  · intro att lu now draw um l h
    unfold scrape_all_stations at h
    cases hfound : (scrape_all_stations_loop att lu MAX_RETRIES 0 0 0).found with
    | some st =>
      simp only [hfound, Except.ok.injEq] at h
      subst h
      exact Or.inl (stations_loop_found_real att lu MAX_RETRIES 0 0 0 st hfound)
    | none =>
      simp only [hfound] at h
      cases um with
      | false => simp at h
      | true =>
        simp only [if_true, Except.ok.injEq] at h
        subst h
        refine Or.inr fun x hx => ?_
        obtain ⟨j, -, -, hsrc⟩ := mem_generate_mock_stations_go 0 STATION_COORDS x hx
        exact hsrc

/-- Witness for `c2_zero_parse_fallback`: with every attempt fetching a page
whose text contains no station pattern (the empty text), the engine returns
the full 7-entry synthetic set. -/
theorem c2_zero_parse_fallback_witness :
    (scrape_all_stations (fun _ => StationsAttempt.html "") "00:00" "00:00"
        (fun _ => 40) true).result =
      .ok (generate_mock_stations (fun _ => 40) "00:00") ∧
    (generate_mock_stations (fun _ => 40) "00:00").length = 7 :=
  have h := c2_zero_parse_fallback.1 (fun _ => StationsAttempt.html "") "00:00" "00:00"
    (fun _ => 40) (fun _ _ => ⟨"", rfl, rfl⟩)
  ⟨h.1, h.2.1.trans rfl⟩

/-! ## News summarization (src/chivas/data.py and the news half of
src/environment/data.py)

The two remote Gemini calls (primary model, then backup model) are
parameters of type `Except String String`: `.ok t` models
`generate_content` returning text `t` (the Python then evaluates
`(response.text or "").strip()`), `.error e` models the call raising an
exception whose string form is `e`.  When no API credential is configured,
`genai` is never configured and both remote calls raise — for the chivas
pipeline, which never checks the credential, "no credential" is therefore
the case where both parameters are `.error`; the environment pipeline
checks the credential explicitly (`has_key`). -/

/-- A news item as built by the RSS readers. -/
structure NewsItem where
  title : String
  description : String
  link : String
  published : String
  source : String
deriving Repr, DecidableEq

/-- The dict produced by `process_news_with_ai` (chivas). -/
structure ProcessedNews where
  title : String
  description : String
  link : String
  published : String
  source : String
  ai_summary : String
  is_rumor : Bool
  processed : Bool
  error : Option String
deriving Repr, DecidableEq

/-- The dict produced by `process_env_news_with_ai` (environment news). -/
structure EnvProcessedNews where
  title : String
  description : String
  link : String
  published : String
  source : String
  ai_summary : String
  processed : Bool
  error : Option String
deriving Repr, DecidableEq

/-- The truncation expression used throughout:
`(texto[:200] + "...") if len(texto) > 200 else texto`. -/
def truncate_desc (texto : String) : String :=
  if texto.length > 200 then texto.take 200 ++ "..." else texto

/-- `resumir_noticia_con_ia` (src/chivas/data.py lines 70-102).  Tries the
flash model; on exception tries the backup model; on a second exception
returns the local string `"Error resumiendo noticia: "` followed by the
exception text.  The title and description only feed the prompt sent to the
remote model, so they do not influence the result beyond `flash`/`backup`.
Note the function catches every exception itself and always returns a
string — it never raises. -/
def resumir_noticia_con_ia (titulo descripcion : String)
    (flash backup : Except String String) : String :=
  match flash with
  | .ok t => t.trim
  | .error _ =>
    match backup with
    | .ok t => t.trim
    | .error e2 => "Error resumiendo noticia: " ++ e2

/-- `process_news_with_ai` (src/chivas/data.py lines 158-185).  Since
`resumir_noticia_con_ia` never raises, the `except` branch of the Python
function (which would set `processed=False`) is unreachable: the result
always has `processed=True`, `is_rumor=False`, `error=None`. -/
def process_news_with_ai (flash backup : Except String String)
    (item : NewsItem) : ProcessedNews :=
  { title := item.title
    description := item.description
    link := item.link
    published := item.published
    source := item.source
    ai_summary := resumir_noticia_con_ia item.title item.description flash backup
    is_rumor := false
    processed := true
    error := none }

/-- `resumir_noticia_medio_ambiente_con_ia` (src/environment/data.py lines
914-942).  With no API key it returns the truncated description without any
remote call; with a key it tries flash then backup, and on a double failure
falls back to the truncated description. -/
def resumir_noticia_medio_ambiente_con_ia (has_key : Bool)
    (titulo descripcion : String) (flash backup : Except String String) : String :=
  if !has_key then truncate_desc descripcion
  else
    match flash with
    | .ok t => t.trim
    | .error _ =>
      match backup with
      | .ok t => t.trim
      | .error _ => truncate_desc descripcion

/-- `process_env_news_with_ai` (src/environment/data.py lines 945-966).
`processed` is `bool(_ENV_GEMINI_API_KEY)` — the credential's presence, not
the success of the remote call.  As in the chivas case the inner summarizer
never raises, so the `except` branch is unreachable. -/
def process_env_news_with_ai (has_key : Bool)
    (flash backup : Except String String) (item : NewsItem) : EnvProcessedNews :=
  { title := item.title
    description := item.description
    link := item.link
    published := item.published
    source := item.source
    ai_summary := resumir_noticia_medio_ambiente_con_ia has_key item.title
      item.description flash backup
    processed := has_key
    error := none }

/-! ## C3: what `processed = true` guarantees -/

/-- A concrete item for the C3 counterexample. -/
def item_c3 : NewsItem :=
  { title := "Chivas gana", description := "Descripción original del partido",
    link := "l", published := "p", source := "s" }

/-- Claim C3 (counterexample): the claim says `processed = true` implies the
summary came from the remote summarizer.  When both remote model calls
raise, the chivas pipeline still returns `processed = true` while
`ai_summary` is the locally built error string — neither remote text nor
the truncated original. -/
theorem c3_counterexample :
    (process_news_with_ai (.error "flash caído") (.error "backup caído") item_c3).processed
        = true ∧
      (process_news_with_ai (.error "flash caído") (.error "backup caído") item_c3).ai_summary
        = "Error resumiendo noticia: backup caído" :=
  ⟨rfl, rfl⟩

/-- Claim C3 (amended): `ai_summary` is the remote summarizer's (stripped)
text whenever one of the two remote attempts succeeds; but `processed=true`
alone does not guarantee remote origin: the chivas pipeline reports
`processed=true` unconditionally, with `ai_summary` a local error string
when both remote attempts fail, and the environment pipeline reports
`processed=true` whenever a credential is present, with `ai_summary` the
locally truncated description when both remote attempts fail; the
environment pipeline reports `processed=false` exactly when no credential
is present. -/
theorem c3_summary_provenance :
    (∀ (t : String) (backup : Except String String) (item : NewsItem),
      (process_news_with_ai (.ok t) backup item).ai_summary = t.trim ∧
      (process_news_with_ai (.ok t) backup item).processed = true) ∧
    (∀ (e1 t : String) (item : NewsItem),
      (process_news_with_ai (.error e1) (.ok t) item).ai_summary = t.trim) ∧
    (∀ (e1 e2 : String) (item : NewsItem),
      (process_news_with_ai (.error e1) (.error e2) item).ai_summary =
          "Error resumiendo noticia: " ++ e2 ∧
      (process_news_with_ai (.error e1) (.error e2) item).processed = true) ∧
    (∀ (t : String) (backup : Except String String) (item : NewsItem),
      (process_env_news_with_ai true (.ok t) backup item).ai_summary = t.trim ∧
      (process_env_news_with_ai true (.ok t) backup item).processed = true) ∧
    (∀ (e1 e2 : String) (item : NewsItem),
      (process_env_news_with_ai true (.error e1) (.error e2) item).ai_summary =
          truncate_desc item.description ∧
      (process_env_news_with_ai true (.error e1) (.error e2) item).processed = true) ∧
    (∀ (flash backup : Except String String) (item : NewsItem),
      (process_env_news_with_ai false flash backup item).processed = false) :=
  ⟨fun _ _ _ => ⟨rfl, rfl⟩, fun _ _ _ => rfl, fun _ _ _ => ⟨rfl, rfl⟩,
   fun _ _ _ => ⟨rfl, rfl⟩, fun _ _ _ => ⟨rfl, rfl⟩, fun _ _ _ => rfl⟩

/-! ## C8: behavior with no API credential -/

/-- A concrete item for the C8 counterexample. -/
def item_c8 : NewsItem :=
  { title := "Reforestación en la ZMG", description := "Breve nota ambiental",
    link := "l", published := "p", source := "s" }

/-- Claim C8 (counterexample): the claim says that with no credential every
item of both feeds gets `processed=false` and a truncated-description
summary.  The chivas pipeline never checks the credential: its remote calls
simply fail (here with the library's missing-key error), and the item comes
back with `processed = true` and an error-string summary instead of the
truncated description. -/
theorem c8_counterexample :
    (process_news_with_ai (.error "API key not configured")
        (.error "API key not configured") item_c8).processed = true ∧
      (process_news_with_ai (.error "API key not configured")
        (.error "API key not configured") item_c8).ai_summary ≠
        truncate_desc item_c8.description := by
  constructor
  · rfl
  · decide

/-- Claim C8 (amended): with no credential, the environment news pipeline
gives every item `processed=false`, `error=None` and `ai_summary` equal to
the description truncated to 200 characters plus an ellipsis when longer
than 200 characters and unchanged otherwise — item by item and over a whole
feed list; the chivas pipeline instead gives `processed=true` with a local
error-string summary, because it never checks the credential and lets the
remote calls fail. -/
theorem c8_no_credential_behavior :
    (∀ (flash backup : Except String String) (item : NewsItem),
      (process_env_news_with_ai false flash backup item).processed = false ∧
      (process_env_news_with_ai false flash backup item).ai_summary =
        truncate_desc item.description ∧
      (process_env_news_with_ai false flash backup item).error = none) ∧
    (∀ (flash backup : Except String String) (items : List NewsItem),
      ∀ x ∈ items.map (process_env_news_with_ai false flash backup),
        x.processed = false ∧ x.ai_summary = truncate_desc x.description) ∧
    (∀ (e1 e2 : String) (item : NewsItem),
      (process_news_with_ai (.error e1) (.error e2) item).processed = true ∧
      (process_news_with_ai (.error e1) (.error e2) item).ai_summary =
        "Error resumiendo noticia: " ++ e2) := by
  refine ⟨fun _ _ _ => ⟨rfl, rfl, rfl⟩, ?_, fun _ _ _ => ⟨rfl, rfl⟩⟩
  intro flash backup items x hx
  simp only [List.mem_map] at hx
  obtain ⟨item, -, rfl⟩ := hx
  exact ⟨rfl, rfl⟩

/-! ## Daily cache (src/utils.py) -/

/-- The JSON object written by `save_daily_cache`:
`{"date": today, "data": payload}`. -/
structure CacheFile (α : Type) where
  date : String
  data : α
deriving Repr, DecidableEq

/-- `save_daily_cache` (src/utils.py lines 34-46): overwrite the file named
`filename` with the dated entry.  The filesystem is modelled as a map from
filenames to parsed file contents (`none` for a missing or unreadable
file); `today` is `datetime.now().strftime` of the write moment; JSON
serialization is assumed to round-trip structurally.  A write error only
logs, leaving the store unchanged — not modelled since no claim touches it. -/
def save_daily_cache {α : Type} (store : String → Option (CacheFile α))
    (filename : String) (today : String) (payload : α) :
    String → Option (CacheFile α) :=
  fun f => if f = filename then some ⟨today, payload⟩ else store f

/-- `load_daily_cache` (src/utils.py lines 8-32): a missing file, or any
read/parse error (both modelled as `store filename = none`), is a miss;
otherwise the entry is returned only when its stored date equals the
current calendar date at the moment of the load. -/
def load_daily_cache {α : Type} (store : String → Option (CacheFile α))
    (filename : String) (today : String) : Option α :=
  match store filename with
  | none => none
  | some c => if c.date = today then some c.data else none

/-- Claim C9: saving a payload under a key and loading the same key on the
same calendar date returns the payload unchanged (structural equality),
and loading on any other calendar date — in particular any later one,
since distinct calendar dates have distinct `"YYYY-MM-DD"` strings — is a
cache miss. -/
theorem c9_cache_round_trip {α : Type} (store : String → Option (CacheFile α))
    (k : String) (p : α) (d d' : String) (h : d' ≠ d) :
    load_daily_cache (save_daily_cache store k d p) k d = some p ∧
    load_daily_cache (save_daily_cache store k d p) k d' = none := by
  constructor
  · simp [load_daily_cache, save_daily_cache]
  · simp only [load_daily_cache, save_daily_cache, if_pos rfl]
    exact if_neg fun hd => h hd.symm

/-- Witness for `c9_cache_round_trip`: a concrete round trip on
2026-10-11 with a miss on 2026-10-12. -/
theorem c9_cache_round_trip_witness :
    load_daily_cache
        (save_daily_cache (fun _ => (none : Option (CacheFile (List Nat))))
          "chivas_news_cache.json" "2026-10-11" [1, 2, 3])
        "chivas_news_cache.json" "2026-10-11" = some [1, 2, 3] ∧
    load_daily_cache
        (save_daily_cache (fun _ => (none : Option (CacheFile (List Nat))))
          "chivas_news_cache.json" "2026-10-11" [1, 2, 3])
        "chivas_news_cache.json" "2026-10-12" = none :=
  c9_cache_round_trip (fun _ => none) "chivas_news_cache.json" [1, 2, 3]
    "2026-10-11" "2026-10-12" (by decide)
